import Mathlib

/-!
# Bootstrap wiring of the OLT poller: `app.App.Start`

A shallow embedding of `src/app/app.go`.  `Start` is pure wiring around calls
into other packages, so the embedding is a function from an environment (the
results of every external call, and the way the race between the serving
goroutine and the caller's context resolves) to the sequence of calls `Start`
performs, the value it returns and the `App` it leaves behind.
-/

namespace OltApp

/-! ## Go error values -/

/-- Go error values.  `addr` is the identity of the allocated value (Go compares
two errors of pointer type by address); `errorString` has no `Unwrap` method,
`wrapError` is what `fmt.Errorf` builds for a `%w` verb. -/
inductive GoError
  | errorString (addr : Nat) (s : String)
  | wrapError (addr : Nat) (msg : String) (err : GoError)
deriving DecidableEq, Repr

/-- Method `Error()` of an error value. -/
def GoError.Error : GoError → String
  | .errorString _ s => s
  | .wrapError _ msg _ => msg

/-- Method `Unwrap()`, when the value has one. -/
def GoError.Unwrap : GoError → Option GoError
  | .errorString _ _ => none
  | .wrapError _ _ err => some err

/-- Inner loop of `errors.Is`: walk the `Unwrap` chain of `err`, comparing each
link with `target`. -/
def errorsIsChain (err target : GoError) : Bool :=
  match err with
  | .errorString a s => decide (GoError.errorString a s = target)
  | .wrapError a m inner =>
      decide (GoError.wrapError a m inner = target) || errorsIsChain inner target

/-- Function `errors.Is(err, target)`; `none` is the nil error. -/
def errorsIs (err target : Option GoError) : Bool :=
  match err, target with
  | some e, some t => errorsIsChain e t
  | e, t => decide (e = t)

/-- Function `fmt.Errorf(prefix + "%w", err)`: the text is the prefix followed
by `err.Error()`, and the result unwraps to `err`. -/
def fmtErrorfW (addr : Nat) (pre : String) (err : GoError) : GoError :=
  .wrapError addr (pre ++ err.Error) err

/-- Function `fmt.Errorf(prefix + "%v", err)`: same text, no `Unwrap`. -/
def fmtErrorfV (addr : Nat) (pre : String) (err : GoError) : GoError :=
  .errorString addr (pre ++ err.Error)

/-- The package-level value `http.ErrServerClosed`
(`errors.New("http: Server closed")`). -/
def ErrServerClosed : GoError := .errorString 0 "http: Server closed"

/-! ## Values handled by `Start`

The collaborating packages are not part of this file; their values are opaque
handles and their functions are fields of `Env`. -/

structure Config where
  h : Nat
deriving DecidableEq, Repr

structure RedisClient where
  h : Nat
deriving DecidableEq, Repr

structure SnmpConn where
  h : Nat
deriving DecidableEq, Repr

structure PonRepo where
  h : Nat
deriving DecidableEq, Repr

structure RedisRepo where
  h : Nat
deriving DecidableEq, Repr

structure Usecase where
  h : Nat
deriving DecidableEq, Repr

structure OnuHandler where
  h : Nat
deriving DecidableEq, Repr

/-- An `http.Handler`, the type of `App.router`. -/
structure Router where
  h : Nat
deriving DecidableEq, Repr

/-- The `http.Server` literal of `Start`: fields `Addr` and `Handler`. -/
structure Server where
  Addr : String
  Handler : Router
deriving DecidableEq, Repr

/-- The context handed to `Start` by its caller; `Start` only reads its
`Done()` channel. -/
structure CallerCtx where
  h : Nat
deriving DecidableEq, Repr

/-- Contexts: `context.Background()`, the caller's context, and
`context.WithTimeout(parent, d)` with `d` in nanoseconds. -/
inductive Ctx
  | background
  | caller (c : CallerCtx)
  | withTimeout (parent : Ctx) (d : Nat)
deriving DecidableEq, Repr

/-- Whether context `c` is `p` or was derived from `p`. -/
def Ctx.derivedFrom (c p : Ctx) : Bool :=
  match c with
  | .background => decide (Ctx.background = p)
  | .caller x => decide (Ctx.caller x = p)
  | .withTimeout parent d => decide (Ctx.withTimeout parent d = p) || parent.derivedFrom p

/-- Constant `time.Second`, in nanoseconds. -/
def timeSecond : Nat := 1000000000

/-- The struct `App`; `router` is nil until `Start` assigns it. -/
structure App where
  router : Option Router
deriving DecidableEq, Repr

/-- Function `New`. -/
def New : App := { router := none }

/-- State of the race when the `select` of `Start` commits.
`served = some e`: `server.ListenAndServe()` has returned `e` and the goroutine
has run to its end; `served = none`: it has not.  `ctxDone`: `ctx.Done()` is
ready.  `pickCh`: the case Go's pseudo-random choice takes when both are ready. -/
structure SelectPoint where
  served : Option (Option GoError)
  ctxDone : Bool
  pickCh : Bool
deriving DecidableEq, Repr

/-- Everything `Start` gets from outside: the functions of the collaborating
packages, the results of the fallible calls (`redisClient.Close()`,
`snmpConn.Conn.Close()`, `server.Shutdown`), the address at which
`fmt.Errorf` allocates, and the schedule. -/
structure Env where
  getenv : String → String
  getConfigPath : String → String
  loadConfig : String → Except GoError Config
  newRedisClient : Config → RedisClient
  setupSnmpConnection : Config → Except GoError SnmpConn
  newPonRepository : SnmpConn → PonRepo
  newOnuRedisRepo : RedisClient → RedisRepo
  newOnuUsecase : PonRepo → RedisRepo → Config → Usecase
  newOnuHandler : Usecase → OnuHandler
  loadRoutes : OnuHandler → Router
  redisCloseErr : Option GoError
  snmpCloseErr : Option GoError
  shutdownErr : Option GoError
  schedule : SelectPoint
  alloc : Nat

/-- One step of `Start`, with the arguments it passes.  The goroutine's steps
(`listenAndServeReturned`, `chSend`, `chClose`) are listed when they happened
before the `select` committed. -/
inductive Action
  | getenv (key : String)
  | getConfigPath (v : String)
  | loadConfig (path : String)
  | newRedisClient (cfg : Config)
  | setupSnmpConnection (cfg : Config)
  | newPonRepository (conn : SnmpConn)
  | newOnuRedisRepo (client : RedisClient)
  | newOnuUsecase (snmpRepo : PonRepo) (redisRepo : RedisRepo) (cfg : Config)
  | newOnuHandler (uc : Usecase)
  | loadRoutes (h : OnuHandler)
  | println (s : String)
  | newServer (s : Server)
  | makeChan
  | goListenAndServe (s : Server)
  | listenAndServeReturned (s : Server) (e : Option GoError)
  | chSend (e : GoError)
  | chClose
  | chRecv (e : Option GoError)
  | ctxDone (ctx : CallerCtx)
  | withTimeout (parent : Ctx) (d : Nat)
  | shutdown (s : Server) (ctx : Ctx)
  | logPrintf (msg : String)
  | cancel (ctx : Ctx)
  | snmpClose (conn : SnmpConn)
  | redisClose (client : RedisClient)
deriving DecidableEq, Repr

/-- A `defer` statement of `Start`, in the order of the source. -/
inductive Deferred
  | closeRedis (client : RedisClient)
  | closeSnmp (conn : SnmpConn)
  | cancel (ctx : Ctx)
deriving DecidableEq, Repr

/-- Body of one deferred call: the close, and the `log.Printf` when it fails. -/
def runDeferredCall (env : Env) : Deferred → List Action
  | .closeRedis client =>
      .redisClose client ::
        (match env.redisCloseErr with
         | some err => [.logPrintf ("Failed to close Redis client: " ++ err.Error)]
         | none => [])
  | .closeSnmp conn =>
      .snmpClose conn ::
        (match env.snmpCloseErr with
         | some err => [.logPrintf ("Failed to close SNMP connection: " ++ err.Error)]
         | none => [])
  | .cancel ctx => [.cancel ctx]

/-- Deferred calls run last-in-first-out; the stack has the latest `defer` at
its head. -/
def runDeferred (env : Env) : List Deferred → List Action
  | [] => []
  | d :: ds => runDeferredCall env d ++ runDeferred env ds

/-- How a run of `Start` ends: it returns an error value (`none` is nil), or it
stays blocked in the `select`. -/
inductive Outcome
  | returned (err : Option GoError)
  | blocked
deriving DecidableEq, Repr

/-- A run of `Start`: the `App` afterwards, the steps in order, the outcome. -/
structure Run where
  app : App
  trace : List Action
  result : Outcome
deriving DecidableEq, Repr

/-- A `return v` of `Start`: the deferred calls run, then `v` is returned.
`Start` has an unnamed result, so no deferred call can change `v`. -/
def ret (env : Env) (a : App) (tr : List Action) (defers : List Deferred)
    (v : Option GoError) : Run :=
  { app := a, trace := tr ++ runDeferred env defers, result := .returned v }

/-- The buffered channel `ch` (`make(chan error, 1)`). -/
structure Chan where
  buf : List GoError
  closed : Bool
deriving DecidableEq, Repr

/-- A receive from `ch`: the buffered value, or nil from the closed empty
channel; `none` when the receive is not ready. -/
def Chan.recv (ch : Chan) : Option (Option GoError) :=
  match ch.buf with
  | v :: _ => some (some v)
  | [] => if ch.closed then some none else none

/-- The goroutine of `Start` once `server.ListenAndServe()` has returned `err`:
its steps and the channel it leaves. -/
def serveGoroutine (env : Env) (server : Server) (err : Option GoError) :
    List Action × Chan :=
  match err with
  | some e =>
      if !errorsIs (some ErrServerClosed) (some e) then
        ([.listenAndServeReturned server err,
          .chSend (fmtErrorfV env.alloc "failed to start server: " e), .chClose],
         { buf := [fmtErrorfV env.alloc "failed to start server: " e], closed := true })
      else
        ([.listenAndServeReturned server err, .chClose], { buf := [], closed := true })
  | none => ([.listenAndServeReturned server err, .chClose], { buf := [], closed := true })

/-- The case `<-ctx.Done()` of the `select`, and the final `return nil`. -/
def doneBranch (env : Env) (ctx : CallerCtx) (a : App) (tr : List Action)
    (defers : List Deferred) (server : Server) : Run :=
  let timeoutCtx := Ctx.withTimeout .background (timeSecond * 10)
  let defers := Deferred.cancel timeoutCtx :: defers
  let tr := tr ++ [.ctxDone ctx, .withTimeout .background (timeSecond * 10),
                   .shutdown server timeoutCtx]
  let tr :=
    match env.shutdownErr with
    | some err =>
        tr ++ [.logPrintf ("Failed to gracefully shut down the server: " ++ err.Error)]
    | none => tr
  ret env a tr defers none

/-- The `select` of `Start` and what follows it. -/
def selectAndFinish (env : Env) (ctx : CallerCtx) (a : App) (tr : List Action)
    (defers : List Deferred) (server : Server) : Run :=
  let g : List Action × Chan :=
    match env.schedule.served with
    | some err => serveGoroutine env server err
    | none => ([], { buf := [], closed := false })
  let tr := tr ++ g.1
  match g.2.recv, env.schedule.ctxDone with
  | some v, false => ret env a (tr ++ [.chRecv v]) defers v
  | some v, true =>
      if env.schedule.pickCh then ret env a (tr ++ [.chRecv v]) defers v
      else doneBranch env ctx a tr defers server
  | none, true => doneBranch env ctx a tr defers server
  | none, false => { app := a, trace := tr, result := .blocked }

/-- Method `(a *App) Start(ctx)`. -/
def Start (env : Env) (ctx : CallerCtx) (a : App) : Run :=
  let configPath := env.getConfigPath (env.getenv "config")
  let tr : List Action :=
    [.getenv "config", .getConfigPath (env.getenv "config"), .loadConfig configPath]
  match env.loadConfig configPath with
  | .error err => ret env a tr [] (some (fmtErrorfW env.alloc "failed to load config: " err))
  | .ok cfg =>
    let redisClient := env.newRedisClient cfg
    let defers := [Deferred.closeRedis redisClient]
    let tr := tr ++ [.newRedisClient cfg, .setupSnmpConnection cfg]
    match env.setupSnmpConnection cfg with
    | .error err =>
        ret env a tr defers
          (some (fmtErrorfW env.alloc "failed to set up SNMP connection: " err))
    | .ok snmpConn =>
      let defers := Deferred.closeSnmp snmpConn :: defers
      let snmpRepo := env.newPonRepository snmpConn
      let redisRepo := env.newOnuRedisRepo redisClient
      let onuUsecase := env.newOnuUsecase snmpRepo redisRepo cfg
      let onuHandler := env.newOnuHandler onuUsecase
      let router := env.loadRoutes onuHandler
      let a : App := { a with router := some router }
      let addr := "8081"
      let server : Server := { Addr := ":" ++ addr, Handler := router }
      let tr := tr ++ [.newPonRepository snmpConn, .newOnuRedisRepo redisClient,
        .newOnuUsecase snmpRepo redisRepo cfg, .newOnuHandler onuUsecase,
        .loadRoutes onuHandler, .println "Server Successfully Running",
        .newServer server, .makeChan, .goListenAndServe server]
      selectAndFinish env ctx a tr defers server

/-! ## Vocabulary for the statements -/

/-- The kind of a step: which call it is, without its arguments. -/
inductive Tag
  | getenv | getConfigPath | loadConfig | newRedisClient | setupSnmpConnection
  | newPonRepository | newOnuRedisRepo | newOnuUsecase | newOnuHandler | loadRoutes
  | println | newServer | makeChan | goListenAndServe | listenAndServeReturned
  | chSend | chClose | chRecv | ctxDone | withTimeout | shutdown | logPrintf
  | cancel | snmpClose | redisClose
deriving DecidableEq, Repr

/-- The kind of a step. -/
def Action.tag : Action → Tag
  | .getenv _ => .getenv
  | .getConfigPath _ => .getConfigPath
  | .loadConfig _ => .loadConfig
  | .newRedisClient _ => .newRedisClient
  | .setupSnmpConnection _ => .setupSnmpConnection
  | .newPonRepository _ => .newPonRepository
  | .newOnuRedisRepo _ => .newOnuRedisRepo
  | .newOnuUsecase _ _ _ => .newOnuUsecase
  | .newOnuHandler _ => .newOnuHandler
  | .loadRoutes _ => .loadRoutes
  | .println _ => .println
  | .newServer _ => .newServer
  | .makeChan => .makeChan
  | .goListenAndServe _ => .goListenAndServe
  | .listenAndServeReturned _ _ => .listenAndServeReturned
  | .chSend _ => .chSend
  | .chClose => .chClose
  | .chRecv _ => .chRecv
  | .ctxDone _ => .ctxDone
  | .withTimeout _ _ => .withTimeout
  | .shutdown _ _ => .shutdown
  | .logPrintf _ => .logPrintf
  | .cancel _ => .cancel
  | .snmpClose _ => .snmpClose
  | .redisClose _ => .redisClose

/-- The kinds of the steps of a run, in order. -/
def Run.tags (r : Run) : List Tag := r.trace.map Action.tag

/-- The steps of a trace whose kind is one of `ts`, in order. -/
def only (ts : List Tag) (tr : List Action) : List Action :=
  tr.filter (fun x => decide (x.tag ∈ ts))

/-- The steps of a trace before the first step of kind `t`. -/
def before (t : Tag) (tr : List Action) : List Action :=
  tr.takeWhile (fun x => !decide (x.tag = t))

/-- The path `Start` hands to `config.LoadConfig`. -/
def configPathOf (env : Env) : String := env.getConfigPath (env.getenv "config")

/-! ## Concrete environments -/

/-- An environment in which every call succeeds and the server is still serving
when the caller's context is cancelled. -/
def envCancel : Env where
  getenv := fun _ => "dev"
  getConfigPath := fun _ => "./config/cfg"
  loadConfig := fun _ => .ok ⟨1⟩
  newRedisClient := fun c => ⟨c.h + 1⟩
  setupSnmpConnection := fun c => .ok ⟨c.h + 2⟩
  newPonRepository := fun c => ⟨c.h + 10⟩
  newOnuRedisRepo := fun c => ⟨c.h + 20⟩
  newOnuUsecase := fun p r c => ⟨p.h + r.h + c.h⟩
  newOnuHandler := fun u => ⟨u.h + 100⟩
  loadRoutes := fun h => ⟨h.h + 1000⟩
  redisCloseErr := none
  snmpCloseErr := none
  shutdownErr := none
  schedule := { served := none, ctxDone := true, pickCh := false }
  alloc := 7

/-- The listen error of a port that is taken. -/
def errAddrInUse : GoError := .errorString 41 "listen tcp :8081: bind: address already in use"

/-- As `envCancel`, but `ListenAndServe` fails at once and the context is live. -/
def envBindFails : Env :=
  { envCancel with schedule := { served := some (some errAddrInUse), ctxDone := false, pickCh := false } }

/-- As `envCancel`, but `config.LoadConfig` fails. -/
def envNoConfig : Env :=
  { envCancel with loadConfig := fun _ => .error (.errorString 42 "open ./config/cfg: no such file") }

/-- As `envCancel`, but `snmp.SetupSnmpConnection` fails. -/
def envNoSnmp : Env :=
  { envCancel with setupSnmpConnection := fun _ => .error (.errorString 43 "dial udp: timeout") }

/-- The caller's context in the examples. -/
def ctx0 : CallerCtx := ⟨0⟩

/-- The client `Start` gets from `redis.NewRedisClient`. -/
abbrev redisOf (env : Env) (cfg : Config) : RedisClient := env.newRedisClient cfg

/-- The use case `Start` builds from a config and an SNMP connection. -/
def usecaseOf (env : Env) (cfg : Config) (conn : SnmpConn) : Usecase :=
  env.newOnuUsecase (env.newPonRepository conn) (env.newOnuRedisRepo (redisOf env cfg)) cfg

/-- The router `Start` builds. -/
def routerOf (env : Env) (cfg : Config) (conn : SnmpConn) : Router :=
  env.loadRoutes (env.newOnuHandler (usecaseOf env cfg conn))

/-- The server `Start` builds. -/
def serverOf (env : Env) (cfg : Config) (conn : SnmpConn) : Server :=
  { Addr := ":8081", Handler := routerOf env cfg conn }

/-- The context `Start` hands to `server.Shutdown`. -/
def shutdownCtx : Ctx := .withTimeout .background (timeSecond * 10)

/-- The way the Device Repository lets its pollers reach the shared transport
session. -/
inductive SessionAccess
  | concurrent
  | singleAccessQueue
deriving DecidableEq, Repr

/-- Modelled from the spec: the body of `repository.NewPonRepository` (the
Device Repository), which is not among the sources.  Sections 5 and 9: the
transport session is shared by all concurrent pollers; its capability is
checked explicitly at startup; when the transport supports concurrent use
that is confirmed, and when it does not the Device Repository serializes all
device calls through a single-access queue.  `multiplexes` is the capability
of the transport the repository is given. -/
def ponRepositoryAccess (multiplexes : Bool) : SessionAccess :=
  if multiplexes then .concurrent else .singleAccessQueue

/-- Modelled from the spec: the step of `Start` at which the access to a
session is settled, and how.  It is the construction of the Device Repository,
`repository.NewPonRepository`, whose body is not among the sources; no other
step does it. -/
def Action.settlesAccess (multiplexes : SnmpConn → Bool) :
    Action → Option (SnmpConn × SessionAccess)
  | .newPonRepository conn => some (conn, ponRepositoryAccess (multiplexes conn))
  | _ => none

/-- Whether a step is given the SNMP session `conn`. -/
def Action.takesSession (conn : SnmpConn) : Action → Bool
  | .newPonRepository c => decide (c = conn)
  | .snmpClose c => decide (c = conn)
  | _ => false

/-- Whether the access to the session has been settled by a step before the
server is started. -/
def guardedBeforeServe (multiplexes : SnmpConn → Bool) (tr : List Action) : Bool :=
  (before .goListenAndServe tr).any (fun x => (x.settlesAccess multiplexes).isSome)

/-- The values the wiring passes around. -/
inductive Val
  | config (c : Config)
  | redisClient (c : RedisClient)
  | snmpConn (c : SnmpConn)
  | ponRepo (r : PonRepo)
  | redisRepo (r : RedisRepo)
  | usecase (u : Usecase)
  | handler (h : OnuHandler)
  | router (r : Router)
  | server (s : Server)
deriving DecidableEq, Repr

/-- The wiring values a step is given as arguments. -/
def Action.args : Action → List Val
  | .newRedisClient cfg => [.config cfg]
  | .setupSnmpConnection cfg => [.config cfg]
  | .newPonRepository conn => [.snmpConn conn]
  | .newOnuRedisRepo client => [.redisClient client]
  | .newOnuUsecase snmpRepo redisRepo cfg => [.ponRepo snmpRepo, .redisRepo redisRepo, .config cfg]
  | .newOnuHandler uc => [.usecase uc]
  | .loadRoutes h => [.handler h]
  | .newServer s => [.router s.Handler]
  | .goListenAndServe s => [.server s]
  | .listenAndServeReturned s _ => [.server s]
  | .shutdown s _ => [.server s]
  | .snmpClose conn => [.snmpConn conn]
  | .redisClose client => [.redisClient client]
  | _ => []

/-- The values below the use case: the SNMP connection, the Redis client and
the two repositories. -/
def Val.isBackend : Val → Bool
  | .redisClient _ => true
  | .snmpConn _ => true
  | .ponRepo _ => true
  | .redisRepo _ => true
  | _ => false

/-- The kinds of step that build or run the HTTP layer. -/
def httpLayer : List Tag :=
  [.newOnuHandler, .loadRoutes, .newServer, .goListenAndServe, .listenAndServeReturned,
   .shutdown]

/-- What `Start` acquires and has to give back. -/
inductive Resource
  | redis (c : RedisClient)
  | snmp (c : SnmpConn)
  | timeout (c : Ctx)
deriving DecidableEq, Repr

/-- The resource a step acquires, if any: the Redis client, the SNMP connection
when the setup succeeds, the timeout context. -/
def acquired (env : Env) : Action → Option Resource
  | .newRedisClient cfg => some (.redis (env.newRedisClient cfg))
  | .setupSnmpConnection cfg =>
      (match env.setupSnmpConnection cfg with
       | .ok conn => some (.snmp conn)
       | .error _ => none)
  | .withTimeout parent d => some (.timeout (.withTimeout parent d))
  | _ => none

/-- The resource a step releases, if any. -/
def released : Action → Option Resource
  | .redisClose c => some (.redis c)
  | .snmpClose c => some (.snmp c)
  | .cancel c => some (.timeout c)
  | _ => none

/-! ## The shape of a run -/

/-- The steps of `Start` up to and including the `go` statement. -/
def wiringSteps (env : Env) (cfg : Config) (conn : SnmpConn) : List Action :=
  [.getenv "config", .getConfigPath (env.getenv "config"), .loadConfig (configPathOf env),
   .newRedisClient cfg, .setupSnmpConnection cfg,
   .newPonRepository conn, .newOnuRedisRepo (redisOf env cfg),
   .newOnuUsecase (env.newPonRepository conn) (env.newOnuRedisRepo (redisOf env cfg)) cfg,
   .newOnuHandler (usecaseOf env cfg conn),
   .loadRoutes (env.newOnuHandler (usecaseOf env cfg conn)),
   .println "Server Successfully Running",
   .newServer (serverOf env cfg conn), .makeChan, .goListenAndServe (serverOf env cfg conn)]

/-- The steps of the deferred calls once both resources are held. -/
def closingSteps (env : Env) (cfg : Config) (conn : SnmpConn) : List Action :=
  runDeferredCall env (.closeSnmp conn) ++ runDeferredCall env (.closeRedis (redisOf env cfg))

/-- The steps of the `<-ctx.Done()` case before the deferred calls. -/
def shutdownSteps (env : Env) (ctx : CallerCtx) (server : Server) : List Action :=
  [.ctxDone ctx, .withTimeout .background (timeSecond * 10), .shutdown server shutdownCtx] ++
    (match env.shutdownErr with
     | some err => [.logPrintf ("Failed to gracefully shut down the server: " ++ err.Error)]
     | none => [])

/-- The value the goroutine leaves for the `select` once `ListenAndServe` has
returned `e`. -/
def serveReport (env : Env) (e : Option GoError) : Option GoError :=
  match e with
  | some x =>
      if x = ErrServerClosed then none
      else some (.errorString env.alloc ("failed to start server: " ++ x.Error))
  | none => none

/-- The goroutine's steps once `ListenAndServe` has returned `e`. -/
def serveSteps (env : Env) (server : Server) (e : Option GoError) : List Action :=
  .listenAndServeReturned server e ::
    (match serveReport env e with
     | some x => [.chSend x, .chClose]
     | none => [.chClose])

/-- The three ways the `select` resolves. -/
inductive Resolution
  | received (e : Option GoError)
  | cancelled (g : Option (Option GoError))
  | stuck
deriving DecidableEq, Repr

/-- How the `select` resolves under a schedule. -/
def resolve (sp : SelectPoint) : Resolution :=
  match sp.served, sp.ctxDone, sp.pickCh with
  | some e, false, _ => .received e
  | some e, true, true => .received e
  | some e, true, false => .cancelled (some e)
  | none, true, _ => .cancelled none
  | none, false, _ => .stuck

/-- The run of `Start` after the wiring, by the way the `select` resolves. -/
def finishOf (env : Env) (ctx : CallerCtx) (cfg : Config) (conn : SnmpConn) : Run :=
  match resolve env.schedule with
  | .received e =>
      { app := { router := some (routerOf env cfg conn) }
        trace := wiringSteps env cfg conn ++ serveSteps env (serverOf env cfg conn) e ++
          [.chRecv (serveReport env e)] ++ closingSteps env cfg conn
        result := .returned (serveReport env e) }
  | .cancelled g =>
      { app := { router := some (routerOf env cfg conn) }
        trace := wiringSteps env cfg conn ++
          (match g with
           | some e => serveSteps env (serverOf env cfg conn) e
           | none => []) ++
          shutdownSteps env ctx (serverOf env cfg conn) ++ [.cancel shutdownCtx] ++
          closingSteps env cfg conn
        result := .returned none }
  | .stuck =>
      { app := { router := some (routerOf env cfg conn) }
        trace := wiringSteps env cfg conn
        result := .blocked }

/-- The steps of a run after the `go` statement. -/
def tailSteps (env : Env) (ctx : CallerCtx) (cfg : Config) (conn : SnmpConn) :
    List Action :=
  match resolve env.schedule with
  | .received e =>
      serveSteps env (serverOf env cfg conn) e ++ [.chRecv (serveReport env e)] ++
        closingSteps env cfg conn
  | .cancelled g =>
      (match g with
       | some e => serveSteps env (serverOf env cfg conn) e
       | none => []) ++
      shutdownSteps env ctx (serverOf env cfg conn) ++ [.cancel shutdownCtx] ++
        closingSteps env cfg conn
  | .stuck => []

/-- The kinds of step that can follow the `go` statement. -/
def tailTags : List Tag :=
  [.listenAndServeReturned, .chSend, .chClose, .chRecv, .ctxDone, .withTimeout, .shutdown,
   .logPrintf, .cancel, .snmpClose, .redisClose]

/-- As `envCancel`, but `server.Shutdown` runs into its deadline. -/
def envShutdownFails : Env :=
  { envCancel with shutdownErr := some (.errorString 44 "context deadline exceeded") }

/-- An error that wraps `http.ErrServerClosed`. -/
def errWrapsClosed : GoError := .wrapError 45 "serve: http: Server closed" ErrServerClosed

/-- As `envCancel`, but `ListenAndServe` returns an error that wraps
`http.ErrServerClosed` while the context is live. -/
def envWrappedClosed : Env :=
  { envCancel with
    schedule := { served := some (some errWrapsClosed), ctxDone := false, pickCh := false } }

/-- The steps of a returning run after the `go` statement and before the
deferred calls. -/
def bodyTail (env : Env) (ctx : CallerCtx) (cfg : Config) (conn : SnmpConn) :
    List Action :=
  match resolve env.schedule with
  | .received e => serveSteps env (serverOf env cfg conn) e ++ [.chRecv (serveReport env e)]
  | .cancelled g =>
      (match g with
       | some e => serveSteps env (serverOf env cfg conn) e
       | none => []) ++ shutdownSteps env ctx (serverOf env cfg conn)
  | .stuck => []

/-- The deferred calls of a returning run, in the order they run. -/
def epilogue (env : Env) (cfg : Config) (conn : SnmpConn) : List Action :=
  match resolve env.schedule with
  | .received _ => closingSteps env cfg conn
  | .cancelled _ => [.cancel shutdownCtx] ++ closingSteps env cfg conn
  | .stuck => []

/-- As `envCancel`, but both closes fail. -/
def envClosesFail : Env :=
  { envCancel with
    redisCloseErr := some (.errorString 46 "redis: client is closed")
    snmpCloseErr := some (.errorString 47 "use of closed network connection") }

/-! ## The paths of `Start` -/

theorem Start_loadError (env : Env) (ctx : CallerCtx) (a : App) (err : GoError)
    (h : env.loadConfig (configPathOf env) = .error err) :
    Start env ctx a =
      { app := a
        trace := [.getenv "config", .getConfigPath (env.getenv "config"),
                  .loadConfig (configPathOf env)]
        result := .returned (some (.wrapError env.alloc
                    ("failed to load config: " ++ err.Error) err)) } := by
  unfold configPathOf at h
  simp [Start, h, ret, runDeferred, fmtErrorfW, configPathOf]

theorem Start_snmpError (env : Env) (ctx : CallerCtx) (a : App) (cfg : Config)
    (err : GoError) (h1 : env.loadConfig (configPathOf env) = .ok cfg)
    (h2 : env.setupSnmpConnection cfg = .error err) :
    Start env ctx a =
      { app := a
        trace := [.getenv "config", .getConfigPath (env.getenv "config"),
                  .loadConfig (configPathOf env), .newRedisClient cfg,
                  .setupSnmpConnection cfg]
                  ++ runDeferredCall env (.closeRedis (redisOf env cfg))
        result := .returned (some (.wrapError env.alloc
                    ("failed to set up SNMP connection: " ++ err.Error) err)) } := by
  unfold configPathOf at h1
  simp [Start, h1, h2, ret, runDeferred, fmtErrorfW, configPathOf, redisOf]

theorem Start_wired (env : Env) (ctx : CallerCtx) (a : App) (cfg : Config)
    (conn : SnmpConn) (h1 : env.loadConfig (configPathOf env) = .ok cfg)
    (h2 : env.setupSnmpConnection cfg = .ok conn) :
    Start env ctx a =
      selectAndFinish env ctx { router := some (routerOf env cfg conn) }
        (wiringSteps env cfg conn)
        [.closeSnmp conn, .closeRedis (redisOf env cfg)] (serverOf env cfg conn) := by
  unfold configPathOf at h1
  simp [Start, h1, h2, wiringSteps, configPathOf, redisOf, usecaseOf, routerOf, serverOf]

theorem errorsIs_ErrServerClosed (e : GoError) :
    errorsIs (some ErrServerClosed) (some e) = decide (e = ErrServerClosed) := by
  simp [errorsIs, ErrServerClosed, errorsIsChain, eq_comm]

theorem serveGoroutine_eq (env : Env) (server : Server) (e : Option GoError) :
    serveGoroutine env server e = (serveSteps env server e,
      { buf := (serveReport env e).toList, closed := true }) := by
  cases e with
  | none => simp [serveGoroutine, serveSteps, serveReport]
  | some x =>
    by_cases hx : x = ErrServerClosed
    · simp [serveGoroutine, serveSteps, serveReport, errorsIs_ErrServerClosed, hx]
    · simp [serveGoroutine, serveSteps, serveReport, errorsIs_ErrServerClosed, hx, fmtErrorfV]

theorem Start_ok (env : Env) (ctx : CallerCtx) (a : App) (cfg : Config)
    (conn : SnmpConn) (h1 : env.loadConfig (configPathOf env) = .ok cfg)
    (h2 : env.setupSnmpConnection cfg = .ok conn) :
    Start env ctx a = finishOf env ctx cfg conn := by
  rw [Start_wired env ctx a cfg conn h1 h2]
  unfold selectAndFinish finishOf resolve
  rcases hs : env.schedule with ⟨served, cd, pk⟩
  rcases served with _ | e
  · cases cd <;> cases pk <;> cases hsd : env.shutdownErr <;>
      simp [Chan.recv, doneBranch, ret, runDeferred, runDeferredCall, closingSteps,
        shutdownSteps, shutdownCtx, hsd, Nat.mul_comm]
  · cases hr : serveReport env e <;> cases cd <;> cases pk <;>
      cases hsd : env.shutdownErr <;>
      simp [serveGoroutine_eq, Chan.recv, doneBranch, ret, runDeferred, runDeferredCall,
        closingSteps, shutdownSteps, shutdownCtx, hsd, hr, Nat.mul_comm]

theorem Start_trace (env : Env) (ctx : CallerCtx) (a : App) (cfg : Config)
    (conn : SnmpConn) (h1 : env.loadConfig (configPathOf env) = .ok cfg)
    (h2 : env.setupSnmpConnection cfg = .ok conn) :
    (Start env ctx a).trace = wiringSteps env cfg conn ++ tailSteps env ctx cfg conn := by
  rw [Start_ok env ctx a cfg conn h1 h2]
  unfold finishOf tailSteps
  cases resolve env.schedule <;> simp [List.append_assoc]

theorem Start_router (env : Env) (ctx : CallerCtx) (a : App) (cfg : Config)
    (conn : SnmpConn) (h1 : env.loadConfig (configPathOf env) = .ok cfg)
    (h2 : env.setupSnmpConnection cfg = .ok conn) :
    (Start env ctx a).app.router = some (routerOf env cfg conn) := by
  rw [Start_ok env ctx a cfg conn h1 h2]
  unfold finishOf
  cases resolve env.schedule <;> rfl

theorem serveSteps_tag (env : Env) (s : Server) (e : Option GoError) :
    ∀ x ∈ serveSteps env s e, x.tag ∈ [Tag.listenAndServeReturned, .chSend, .chClose] := by
  unfold serveSteps
  cases serveReport env e <;> simp [Action.tag]

theorem shutdownSteps_tag (env : Env) (ctx : CallerCtx) (s : Server) :
    ∀ x ∈ shutdownSteps env ctx s,
      x.tag ∈ [Tag.ctxDone, .withTimeout, .shutdown, .logPrintf] := by
  unfold shutdownSteps
  cases env.shutdownErr <;> simp [Action.tag]

theorem closingSteps_tag (env : Env) (cfg : Config) (conn : SnmpConn) :
    ∀ x ∈ closingSteps env cfg conn, x.tag ∈ [Tag.snmpClose, .redisClose, .logPrintf] := by
  unfold closingSteps runDeferredCall
  cases env.snmpCloseErr <;> cases env.redisCloseErr <;> simp [Action.tag]

theorem tailSteps_tag (env : Env) (ctx : CallerCtx) (cfg : Config) (conn : SnmpConn) :
    ∀ x ∈ tailSteps env ctx cfg conn, x.tag ∈ tailTags := by
  intro x hx
  have hs := serveSteps_tag env (serverOf env cfg conn)
  have hd := shutdownSteps_tag env ctx (serverOf env cfg conn) x
  have hc := closingSteps_tag env cfg conn x
  unfold tailSteps at hx
  cases hres : resolve env.schedule with
  | received e =>
    simp only [hres, List.mem_append, List.mem_singleton] at hx
    rcases hx with (hx | hx) | hx
    · have := hs e x hx
      revert this; generalize x.tag = t; cases t <;> simp [tailTags]
    · subst hx; simp [Action.tag, tailTags]
    · have := hc hx
      revert this; generalize x.tag = t; cases t <;> simp [tailTags]
  | cancelled g =>
    simp only [hres, List.mem_append, List.mem_singleton] at hx
    rcases hx with ((hx | hx) | hx) | hx
    · rcases g with _ | e
      · simp at hx
      · have := hs e x hx
        revert this; generalize x.tag = t; cases t <;> simp [tailTags]
    · have := hd hx
      revert this; generalize x.tag = t; cases t <;> simp [tailTags]
    · subst hx; simp [Action.tag, tailTags]
    · have := hc hx
      revert this; generalize x.tag = t; cases t <;> simp [tailTags]
  | stuck => simp [hres] at hx

theorem only_append (ts : List Tag) (l₁ l₂ : List Action) :
    only ts (l₁ ++ l₂) = only ts l₁ ++ only ts l₂ := by
  simp [only]

theorem only_eq_nil (ts : List Tag) (l : List Action) (h : ∀ x ∈ l, x.tag ∉ ts) :
    only ts l = [] := by
  simp only [only, List.filter_eq_nil_iff, decide_eq_true_eq]
  exact h

theorem only_tail_nil (env : Env) (ctx : CallerCtx) (cfg : Config) (conn : SnmpConn)
    (ts : List Tag) (h : ∀ t ∈ ts, t ∉ tailTags) :
    only ts (tailSteps env ctx cfg conn) = [] :=
  only_eq_nil ts _ (fun x hx hmem => h _ hmem (tailSteps_tag env ctx cfg conn x hx))

theorem httpLayer_args (x : Action) (h : x.tag ∈ httpLayer) :
    ∀ v ∈ x.args, v.isBackend = false := by
  cases x <;> simp [Action.tag, httpLayer] at h <;> simp [Action.args, Val.isBackend]

theorem Start_result (env : Env) (ctx : CallerCtx) (a : App) (cfg : Config)
    (conn : SnmpConn) (h1 : env.loadConfig (configPathOf env) = .ok cfg)
    (h2 : env.setupSnmpConnection cfg = .ok conn) :
    (Start env ctx a).result =
      (match resolve env.schedule with
       | .received e => .returned (serveReport env e)
       | .cancelled _ => .returned none
       | .stuck => .blocked) := by
  rw [Start_ok env ctx a cfg conn h1 h2]
  unfold finishOf
  cases resolve env.schedule <;> rfl

/-! ## The SNMP session -/

/-- C3: when `snmp.SetupSnmpConnection` succeeds the connection is handed to
`repository.NewPonRepository` before the server is started; before its first
close, `ListenAndServe` has returned or `Shutdown` has been called; a run that
returns closes it exactly once, in the deferred calls that end `Start` (only the
Redis close and log lines follow), and a run still blocked in the `select` has
not closed it.  When `SetupSnmpConnection` fails no close of the SNMP
connection is attempted. -/
theorem snmp_session_held_until_server_stops (env : Env) (ctx : CallerCtx) (a : App)
    (cfg : Config) (h1 : env.loadConfig (configPathOf env) = .ok cfg) :
    (∀ conn, env.setupSnmpConnection cfg = .ok conn →
      Action.newPonRepository conn ∈ before .goListenAndServe (Start env ctx a).trace ∧
      (Tag.snmpClose ∈ (Start env ctx a).tags →
        ∃ x ∈ before .snmpClose (Start env ctx a).trace,
          x.tag = .listenAndServeReturned ∨ x.tag = .shutdown) ∧
      (∀ v, (Start env ctx a).result = .returned v →
        only [.snmpClose] (Start env ctx a).trace = [.snmpClose conn] ∧
        ∃ pre, (Start env ctx a).trace = pre ++ closingSteps env cfg conn) ∧
      ((Start env ctx a).result = .blocked →
        only [.snmpClose] (Start env ctx a).trace = [])) ∧
    (∀ err, env.setupSnmpConnection cfg = .error err →
      Tag.snmpClose ∉ (Start env ctx a).tags) := by
  refine ⟨fun conn h2 => ?_, fun err h2 => ?_⟩
  · rw [Start_ok env ctx a cfg conn h1 h2]
    unfold finishOf
    cases hres : resolve env.schedule with
    | received e =>
      refine ⟨by simp [*, before, wiringSteps, Action.tag], ?_, ?_, by simp⟩
      · intro _
        refine ⟨.listenAndServeReturned (serverOf env cfg conn) e, ?_, by simp [Action.tag]⟩
        cases hr : serveReport env e <;>
          simp [*, before, wiringSteps, serveSteps, closingSteps, runDeferredCall, Action.tag]
      · intro v _
        refine ⟨?_, _, rfl⟩
        cases hr : serveReport env e <;> cases hsc : env.snmpCloseErr <;> cases hrc : env.redisCloseErr <;>
          simp [*, only, wiringSteps, serveSteps, closingSteps, runDeferredCall, Action.tag]
    | cancelled g =>
      refine ⟨by simp [*, before, wiringSteps, Action.tag], ?_, ?_, by simp⟩
      · intro _
        refine ⟨.shutdown (serverOf env cfg conn) shutdownCtx, ?_, by simp [Action.tag]⟩
        rcases g with _ | e
        · cases hsd : env.shutdownErr <;>
            simp [*, before, wiringSteps, shutdownSteps, closingSteps, runDeferredCall,
              Action.tag]
        · cases hr : serveReport env e <;> cases hsd : env.shutdownErr <;>
            simp [*, before, wiringSteps, serveSteps, shutdownSteps, closingSteps,
              runDeferredCall, Action.tag]
      · intro v _
        refine ⟨?_, _, rfl⟩
        rcases g with _ | e
        · cases hsd : env.shutdownErr <;> cases hsc : env.snmpCloseErr <;> cases hrc : env.redisCloseErr <;>
            simp [*, only, wiringSteps, shutdownSteps, closingSteps, runDeferredCall,
              Action.tag]
        · cases hr : serveReport env e <;> cases hsd : env.shutdownErr <;> cases hsc : env.snmpCloseErr <;>
            cases hrc : env.redisCloseErr <;>
            simp [*, only, wiringSteps, serveSteps, shutdownSteps, closingSteps,
              runDeferredCall, Action.tag]
    | stuck =>
      refine ⟨by simp [*, before, wiringSteps, Action.tag],
        by simp [Run.tags, wiringSteps, Action.tag], by simp,
        fun _ => by simp [*, only, wiringSteps, Action.tag]⟩
  · rw [Start_snmpError env ctx a cfg err h1 h2]
    cases hrc : env.redisCloseErr <;> simp [*, Run.tags, runDeferredCall, Action.tag]

/-- C3 at concrete environments: a run ended by cancellation closes session 3
once, after handing it to the repository; a run whose SNMP setup fails closes
no session. -/
theorem snmp_session_held_until_server_stops_witness :
    Action.newPonRepository ⟨3⟩ ∈ before .goListenAndServe (Start envCancel ctx0 New).trace ∧
    only [.snmpClose] (Start envCancel ctx0 New).trace = [.snmpClose ⟨3⟩] ∧
    Tag.snmpClose ∉ (Start envNoSnmp ctx0 New).tags :=
  have h := (snmp_session_held_until_server_stops envCancel ctx0 New ⟨1⟩ rfl).1 ⟨3⟩ rfl
  ⟨h.1, (h.2.2.1 none rfl).1,
   (snmp_session_held_until_server_stops envNoSnmp ctx0 New ⟨1⟩ rfl).2
     (.errorString 43 "dial udp: timeout") rfl⟩

/-! ## Start-up failures -/

/-- C1: the server is started only if `config.LoadConfig` and
`snmp.SetupSnmpConnection` both succeeded, and the Redis client and the SNMP
connection are both built, once each, from the one config `LoadConfig` returned.
When `LoadConfig` fails with `err`, `Start` returns an error whose text is
"failed to load config: " followed by the text of `err` and which unwraps to
`err`, and creates no Redis client, SNMP connection or server.  When
`SetupSnmpConnection` fails with `err`, `Start` returns an error whose text is
"failed to set up SNMP connection: " followed by the text of `err` and which
unwraps to `err`, and builds no repository, use case, handler, router or
server (the router of the `App` is left as it was). -/
theorem start_gated_on_config_and_snmp (env : Env) (ctx : CallerCtx) (a : App) :
    (Tag.goListenAndServe ∈ (Start env ctx a).tags →
      ∃ cfg conn, env.loadConfig (configPathOf env) = .ok cfg ∧
        env.setupSnmpConnection cfg = .ok conn) ∧
    (∀ cfg, env.loadConfig (configPathOf env) = .ok cfg →
      only [.loadConfig, .newRedisClient, .setupSnmpConnection] (Start env ctx a).trace =
        [.loadConfig (configPathOf env), .newRedisClient cfg, .setupSnmpConnection cfg]) ∧
    (∀ err, env.loadConfig (configPathOf env) = .error err →
      (∃ e, (Start env ctx a).result = .returned (some e) ∧
        e.Error = "failed to load config: " ++ err.Error ∧ e.Unwrap = some err) ∧
      (∀ t ∈ (Start env ctx a).tags,
        t ∉ [Tag.newRedisClient, .setupSnmpConnection, .newServer, .goListenAndServe]) ∧
      (Start env ctx a).app = a) ∧
    (∀ cfg err, env.loadConfig (configPathOf env) = .ok cfg →
      env.setupSnmpConnection cfg = .error err →
      (∃ e, (Start env ctx a).result = .returned (some e) ∧
        e.Error = "failed to set up SNMP connection: " ++ err.Error ∧
        e.Unwrap = some err) ∧
      (∀ t ∈ (Start env ctx a).tags,
        t ∉ [Tag.newPonRepository, .newOnuRedisRepo, .newOnuUsecase, .newOnuHandler,
             .loadRoutes, .newServer, .goListenAndServe]) ∧
      (Start env ctx a).app = a) := by
  refine ⟨?_, ?_, ?_, ?_⟩
  · intro hgo
    cases h1 : env.loadConfig (configPathOf env) with
    | error err =>
      rw [Start_loadError env ctx a err h1] at hgo
      simp [Run.tags, Action.tag] at hgo
    | ok cfg =>
      cases h2 : env.setupSnmpConnection cfg with
      | error err =>
        rw [Start_snmpError env ctx a cfg err h1 h2] at hgo
        cases hrc : env.redisCloseErr <;>
          simp [hrc, Run.tags, runDeferredCall, Action.tag] at hgo
      | ok conn => exact ⟨cfg, conn, rfl, h2⟩
  · intro cfg h1
    cases h2 : env.setupSnmpConnection cfg with
    | error err =>
      rw [Start_snmpError env ctx a cfg err h1 h2]
      cases hrc : env.redisCloseErr <;> simp [hrc, only, runDeferredCall, Action.tag]
    | ok conn =>
      rw [Start_ok env ctx a cfg conn h1 h2]
      unfold finishOf
      cases hres : resolve env.schedule with
      | received e =>
        cases hr : serveReport env e <;> cases hsc : env.snmpCloseErr <;>
          cases hrc : env.redisCloseErr <;>
          simp [*, only, wiringSteps, serveSteps, closingSteps, runDeferredCall, Action.tag]
      | cancelled g =>
        rcases g with _ | e
        · cases hsd : env.shutdownErr <;> cases hsc : env.snmpCloseErr <;>
            cases hrc : env.redisCloseErr <;>
            simp [*, only, wiringSteps, shutdownSteps, closingSteps, runDeferredCall,
              Action.tag]
        · cases hr : serveReport env e <;> cases hsd : env.shutdownErr <;>
            cases hsc : env.snmpCloseErr <;> cases hrc : env.redisCloseErr <;>
            simp [*, only, wiringSteps, serveSteps, shutdownSteps, closingSteps,
              runDeferredCall, Action.tag]
      | stuck => simp [only, wiringSteps, Action.tag]
  · intro err h1
    rw [Start_loadError env ctx a err h1]
    exact ⟨⟨_, rfl, rfl, rfl⟩, by simp [Run.tags, Action.tag], rfl⟩
  · intro cfg err h1 h2
    rw [Start_snmpError env ctx a cfg err h1 h2]
    refine ⟨⟨_, rfl, rfl, rfl⟩, ?_, rfl⟩
    cases hrc : env.redisCloseErr <;> simp [hrc, Run.tags, runDeferredCall, Action.tag]

/-- C1 at two concrete environments: a missing config file and an unreachable
device. -/
theorem start_gated_on_config_and_snmp_witness :
    (∃ e, (Start envNoConfig ctx0 New).result = .returned (some e) ∧
      e.Error = "failed to load config: open ./config/cfg: no such file" ∧
      e.Unwrap = some (.errorString 42 "open ./config/cfg: no such file")) ∧
    (∃ e, (Start envNoSnmp ctx0 New).result = .returned (some e) ∧
      e.Error = "failed to set up SNMP connection: dial udp: timeout" ∧
      e.Unwrap = some (.errorString 43 "dial udp: timeout")) :=
  ⟨((start_gated_on_config_and_snmp envNoConfig ctx0 New).2.2.1
      (.errorString 42 "open ./config/cfg: no such file") rfl).1,
   ((start_gated_on_config_and_snmp envNoSnmp ctx0 New).2.2.2 ⟨1⟩
      (.errorString 43 "dial udp: timeout") rfl rfl).1⟩

/-! ## Wiring -/

/-- C4: once config and SNMP connection are there, `Start` builds, in this
order, the Device Repository from the SNMP connection alone, the Cache
Repository from the Redis client alone, the use case from these two
repositories and the config, the handler from the use case alone, the router
from the handler alone and the server on ":8081" from the router; the router is
stored in the `App`.  No step that builds or runs the HTTP layer is given the
SNMP connection, the Redis client or a repository. -/
theorem wiring_layer_by_layer (env : Env) (ctx : CallerCtx) (a : App) (cfg : Config)
    (conn : SnmpConn) (h1 : env.loadConfig (configPathOf env) = .ok cfg)
    (h2 : env.setupSnmpConnection cfg = .ok conn) :
    only [.newPonRepository, .newOnuRedisRepo, .newOnuUsecase, .newOnuHandler,
          .loadRoutes, .newServer] (Start env ctx a).trace =
      [.newPonRepository conn,
       .newOnuRedisRepo (env.newRedisClient cfg),
       .newOnuUsecase (env.newPonRepository conn)
          (env.newOnuRedisRepo (env.newRedisClient cfg)) cfg,
       .newOnuHandler (usecaseOf env cfg conn),
       .loadRoutes (env.newOnuHandler (usecaseOf env cfg conn)),
       .newServer { Addr := ":8081",
                    Handler := env.loadRoutes (env.newOnuHandler (usecaseOf env cfg conn)) }] ∧
    usecaseOf env cfg conn =
      env.newOnuUsecase (env.newPonRepository conn)
        (env.newOnuRedisRepo (env.newRedisClient cfg)) cfg ∧
    (Start env ctx a).app.router =
      some (env.loadRoutes (env.newOnuHandler (usecaseOf env cfg conn))) ∧
    (∀ x ∈ only httpLayer (Start env ctx a).trace, ∀ v ∈ x.args, v.isBackend = false) := by
  refine ⟨?_, rfl, Start_router env ctx a cfg conn h1 h2, ?_⟩
  · rw [Start_trace env ctx a cfg conn h1 h2, only_append,
      only_tail_nil env ctx cfg conn _ (by decide)]
    simp [only, wiringSteps, Action.tag, usecaseOf, routerOf, serverOf, redisOf]
  · intro x hx
    exact httpLayer_args x (by simpa [only] using (List.mem_filter.mp hx).2)

/-- C4 at a concrete environment: the handler is built from use case 36, which
was built from repositories 13 and 22 and config 1. -/
theorem wiring_layer_by_layer_witness :
    only [.newPonRepository, .newOnuRedisRepo, .newOnuUsecase, .newOnuHandler,
          .loadRoutes, .newServer] (Start envCancel ctx0 New).trace =
      [.newPonRepository ⟨3⟩, .newOnuRedisRepo ⟨2⟩, .newOnuUsecase ⟨13⟩ ⟨22⟩ ⟨1⟩,
       .newOnuHandler ⟨36⟩, .loadRoutes ⟨136⟩,
       .newServer { Addr := ":8081", Handler := ⟨1136⟩ }] :=
  (wiring_layer_by_layer envCancel ctx0 New ⟨1⟩ ⟨3⟩ rfl rfl).1

/-! ## The transport session at start-up -/

/-- C2: with the Device Repository as the spec describes it, no run of `Start`
starts the server before the access to the SNMP session is settled.  When
config and SNMP connection are there, the steps before the server is started
are exactly the thirteen below; the only one that is given the session is
`repository.NewPonRepository`, which receives it as
`snmp.SetupSnmpConnection` returned it and settles its access once: concurrent
use when the transport supports it, a single-access queue when it does not;
and the router that is served is built over that repository. -/
theorem access_settled_before_serving (env : Env) (ctx : CallerCtx) (a : App)
    (multiplexes : SnmpConn → Bool) :
    (Tag.goListenAndServe ∈ (Start env ctx a).tags →
      guardedBeforeServe multiplexes (Start env ctx a).trace = true) ∧
    (∀ cfg conn, env.loadConfig (configPathOf env) = .ok cfg →
      env.setupSnmpConnection cfg = .ok conn →
      before .goListenAndServe (Start env ctx a).trace =
        [.getenv "config", .getConfigPath (env.getenv "config"),
         .loadConfig (configPathOf env), .newRedisClient cfg, .setupSnmpConnection cfg,
         .newPonRepository conn, .newOnuRedisRepo (env.newRedisClient cfg),
         .newOnuUsecase (env.newPonRepository conn)
            (env.newOnuRedisRepo (env.newRedisClient cfg)) cfg,
         .newOnuHandler (usecaseOf env cfg conn),
         .loadRoutes (env.newOnuHandler (usecaseOf env cfg conn)),
         .println "Server Successfully Running",
         .newServer (serverOf env cfg conn), .makeChan] ∧
      (before .goListenAndServe (Start env ctx a).trace).filter (Action.takesSession conn) =
        [.newPonRepository conn] ∧
      (before .goListenAndServe (Start env ctx a).trace).filterMap
          (Action.settlesAccess multiplexes) =
        [(conn, ponRepositoryAccess (multiplexes conn))] ∧
      (multiplexes conn = true → ponRepositoryAccess (multiplexes conn) = .concurrent) ∧
      (multiplexes conn = false →
        ponRepositoryAccess (multiplexes conn) = .singleAccessQueue) ∧
      Tag.goListenAndServe ∈ (Start env ctx a).tags ∧
      (Start env ctx a).app.router =
        some (env.loadRoutes (env.newOnuHandler (env.newOnuUsecase
          (env.newPonRepository conn) (env.newOnuRedisRepo (env.newRedisClient cfg)) cfg)))) := by
  have key : ∀ cfg conn, env.loadConfig (configPathOf env) = .ok cfg →
      env.setupSnmpConnection cfg = .ok conn →
      before .goListenAndServe (Start env ctx a).trace =
        [.getenv "config", .getConfigPath (env.getenv "config"),
         .loadConfig (configPathOf env), .newRedisClient cfg, .setupSnmpConnection cfg,
         .newPonRepository conn, .newOnuRedisRepo (env.newRedisClient cfg),
         .newOnuUsecase (env.newPonRepository conn)
            (env.newOnuRedisRepo (env.newRedisClient cfg)) cfg,
         .newOnuHandler (usecaseOf env cfg conn),
         .loadRoutes (env.newOnuHandler (usecaseOf env cfg conn)),
         .println "Server Successfully Running",
         .newServer (serverOf env cfg conn), .makeChan] := by
    intro cfg conn h1 h2
    rw [Start_trace env ctx a cfg conn h1 h2]
    simp [before, wiringSteps, Action.tag]
  refine ⟨fun hgo => ?_, fun cfg conn h1 h2 => ?_⟩
  · cases h1 : env.loadConfig (configPathOf env) with
    | error err =>
      rw [Start_loadError env ctx a err h1] at hgo
      simp [Run.tags, Action.tag] at hgo
    | ok cfg =>
      cases h2 : env.setupSnmpConnection cfg with
      | error err =>
        rw [Start_snmpError env ctx a cfg err h1 h2] at hgo
        cases hrc : env.redisCloseErr <;>
          simp [hrc, Run.tags, runDeferredCall, Action.tag] at hgo
      | ok conn =>
        unfold guardedBeforeServe
        rw [key cfg conn h1 h2]
        simp [Action.settlesAccess]
  · refine ⟨key cfg conn h1 h2, ?_, ?_, ?_, ?_, ?_, ?_⟩
    · rw [key cfg conn h1 h2]
      simp [Action.takesSession]
    · rw [key cfg conn h1 h2]
      simp [Action.settlesAccess]
    · intro hm
      simp [ponRepositoryAccess, hm]
    · intro hm
      simp [ponRepositoryAccess, hm]
    · rw [Run.tags, Start_trace env ctx a cfg conn h1 h2]
      simp [wiringSteps, Action.tag]
    · rw [Start_router env ctx a cfg conn h1 h2]
      rfl

/-- C2 at concrete environments: with a transport that does not multiplex, the
run that starts the server has settled session 3 on a single-access queue
before that; the run whose SNMP setup fails never starts the server. -/
theorem access_settled_before_serving_witness :
    (before .goListenAndServe (Start envCancel ctx0 New).trace).filterMap
        (Action.settlesAccess (fun _ => false)) = [(⟨3⟩, .singleAccessQueue)] ∧
    guardedBeforeServe (fun _ => false) (Start envCancel ctx0 New).trace = true ∧
    Tag.goListenAndServe ∉ (Start envNoSnmp ctx0 New).tags ∧
    guardedBeforeServe (fun _ => false) (Start envNoSnmp ctx0 New).trace = false :=
  ⟨((access_settled_before_serving envCancel ctx0 New (fun _ => false)).2
      ⟨1⟩ ⟨3⟩ rfl rfl).2.2.1,
   (access_settled_before_serving envCancel ctx0 New (fun _ => false)).1 (by decide),
   by decide, by decide⟩

/-! ## Shutdown -/

/-- C5: `server.Shutdown` is called only when the caller's context is done.  If
the context is done while `ListenAndServe` has not returned, `Start` calls
`Shutdown` exactly once, with a context made by `context.WithTimeout` from
`context.Background()` with 10 seconds (10000000000 ns), which is not derived
from the caller's context, and returns nil; when `Shutdown` fails the failure
is logged and `Start` returns nil as well. -/
theorem shutdown_on_cancel (env : Env) (ctx : CallerCtx) (a : App) (cfg : Config)
    (conn : SnmpConn) (h1 : env.loadConfig (configPathOf env) = .ok cfg)
    (h2 : env.setupSnmpConnection cfg = .ok conn) :
    (Tag.shutdown ∈ (Start env ctx a).tags → env.schedule.ctxDone = true) ∧
    (env.schedule.served = none → env.schedule.ctxDone = true →
      (Start env ctx a).result = .returned none ∧
      only [.withTimeout, .shutdown] (Start env ctx a).trace =
        [.withTimeout .background (timeSecond * 10),
         .shutdown (serverOf env cfg conn) (.withTimeout .background (timeSecond * 10))] ∧
      timeSecond * 10 = 10000000000 ∧
      Ctx.derivedFrom (.withTimeout .background (timeSecond * 10)) (.caller ctx) = false ∧
      (∀ err, env.shutdownErr = some err →
        Action.logPrintf ("Failed to gracefully shut down the server: " ++ err.Error) ∈
          (Start env ctx a).trace)) := by
  have hw : only [Tag.withTimeout, .shutdown] (wiringSteps env cfg conn) = [] := by
    simp [only, wiringSteps, Action.tag]
  refine ⟨fun hsd => ?_, fun hs hc => ⟨?_, ?_, by decide,
    by simp [Ctx.derivedFrom], fun err herr => ?_⟩⟩
  · simp only [Run.tags, Start_trace env ctx a cfg conn h1 h2, List.map_append,
      List.mem_append] at hsd
    rcases hsd with hsd | hsd
    · simp [wiringSteps, Action.tag] at hsd
    · cases hcd : env.schedule.ctxDone with
      | true => rfl
      | false =>
        exfalso
        rcases hsv : env.schedule.served with _ | e
        · simp [tailSteps, resolve, hcd, hsv] at hsd
        · have := serveSteps_tag env (serverOf env cfg conn) e
          have hc := closingSteps_tag env cfg conn
          simp only [tailSteps, resolve, hcd, hsv, List.map_append, List.mem_append,
            List.mem_map] at hsd
          rcases hsd with (⟨x, hx, ht⟩ | ⟨x, hx, ht⟩) | ⟨x, hx, ht⟩
          · have := this x hx; rw [ht] at this; simp at this
          · simp at hx; subst hx; simp [Action.tag] at ht
          · have := hc x hx; rw [ht] at this; simp at this
  · rw [Start_result env ctx a cfg conn h1 h2]
    simp [resolve, hs, hc]
  · rw [Start_trace env ctx a cfg conn h1 h2, only_append, hw]
    have hcl : only [Tag.withTimeout, .shutdown] (closingSteps env cfg conn) = [] :=
      only_eq_nil _ _ (fun x hx hmem => by
        have := closingSteps_tag env cfg conn x hx
        revert this hmem; generalize x.tag = t; cases t <;> simp)
    simp only [tailSteps, resolve, hs, hc, only_append, hcl]
    cases hsd : env.shutdownErr <;> simp [only, shutdownSteps, shutdownCtx, Action.tag, hsd]
  · rw [Start_trace env ctx a cfg conn h1 h2]
    simp [tailSteps, resolve, hs, hc, shutdownSteps, herr]

/-- C5 at a concrete environment in which `Shutdown` fails. -/
theorem shutdown_on_cancel_witness :
    (Start envShutdownFails ctx0 New).result = .returned none ∧
    only [.withTimeout, .shutdown] (Start envShutdownFails ctx0 New).trace =
      [.withTimeout .background 10000000000,
       .shutdown { Addr := ":8081", Handler := ⟨1136⟩ }
         (.withTimeout .background 10000000000)] ∧
    Action.logPrintf
        "Failed to gracefully shut down the server: context deadline exceeded" ∈
      (Start envShutdownFails ctx0 New).trace :=
  have h := (shutdown_on_cancel envShutdownFails ctx0 New ⟨1⟩ ⟨3⟩ rfl rfl).2 rfl rfl
  ⟨h.1, h.2.1, h.2.2.2.2 (.errorString 44 "context deadline exceeded") rfl⟩

/-! ## Errors of `ListenAndServe` -/

/-- C6: let `ListenAndServe` have returned `e` when the `select` commits.
With the context not done, `Start` returns the error with text "failed to start
server: " followed by the text of `e` when `e` is non-nil and is not
`http.ErrServerClosed` itself, and nil when `e` is `http.ErrServerClosed` or
nil; so it returns a non-nil error exactly when `e` is non-nil and differs from
`http.ErrServerClosed`.  `errors.Is(http.ErrServerClosed, err)` is false for an
`err` that wraps `http.ErrServerClosed` (with the arguments swapped it is
true), so such an error is reported as a start failure.  With the context done
as well, the `select` may take either case: the same value as above, or nil. -/
theorem serve_error_reporting (env : Env) (ctx : CallerCtx) (a : App) (cfg : Config)
    (conn : SnmpConn) (e : Option GoError)
    (h1 : env.loadConfig (configPathOf env) = .ok cfg)
    (h2 : env.setupSnmpConnection cfg = .ok conn)
    (hs : env.schedule.served = some e) :
    (env.schedule.ctxDone = false ∨ env.schedule.pickCh = true →
      (∀ x, e = some x → x ≠ ErrServerClosed →
        (Start env ctx a).result = .returned (some
          (.errorString env.alloc ("failed to start server: " ++ x.Error)))) ∧
      (e = some ErrServerClosed → (Start env ctx a).result = .returned none) ∧
      (e = none → (Start env ctx a).result = .returned none) ∧
      ((∃ err, (Start env ctx a).result = .returned (some err)) ↔
        (e ≠ none ∧ e ≠ some ErrServerClosed)) ∧
      (∀ addr msg, e = some (.wrapError addr msg ErrServerClosed) →
        (Start env ctx a).result = .returned (some
          (.errorString env.alloc ("failed to start server: " ++ msg))))) ∧
    (∀ addr msg,
      errorsIs (some ErrServerClosed) (some (.wrapError addr msg ErrServerClosed)) = false ∧
      errorsIs (some (.wrapError addr msg ErrServerClosed)) (some ErrServerClosed) = true) ∧
    (env.schedule.ctxDone = true → env.schedule.pickCh = false →
      (Start env ctx a).result = .returned none) := by
  refine ⟨fun hsel => ?_, fun addr msg => ?_, fun hc hp => ?_⟩
  · have hres : resolve env.schedule = .received e := by
      rcases hsel with hc | hp
      · simp [resolve, hs, hc]
      · cases hc : env.schedule.ctxDone <;> simp [resolve, hs, hc, hp]
    rw [Start_result env ctx a cfg conn h1 h2, hres]
    refine ⟨?_, ?_, ?_, ?_, ?_⟩
    · intro x hx hne
      simp [serveReport, hx, hne]
    · intro hx
      simp [serveReport, hx]
    · intro hx
      simp [serveReport, hx]
    · rcases e with _ | x
      · simp [serveReport]
      · by_cases hx : x = ErrServerClosed <;> simp [serveReport, hx]
    · intro addr msg hx
      simp [serveReport, hx, ErrServerClosed, GoError.Error]
  · simp [errorsIs, errorsIsChain, ErrServerClosed]
  · rw [Start_result env ctx a cfg conn h1 h2]
    simp [resolve, hs, hc, hp]

/-- C6 at a concrete environment: the wrapped `http.ErrServerClosed` comes back
as a start failure. -/
theorem serve_error_reporting_witness :
    (Start envWrappedClosed ctx0 New).result = .returned (some
      (.errorString 7 "failed to start server: serve: http: Server closed")) :=
  ((serve_error_reporting envWrappedClosed ctx0 New ⟨1⟩ ⟨3⟩ (some errWrapsClosed)
      rfl rfl rfl).1 (Or.inl rfl)).2.2.2.2 45 "serve: http: Server closed" rfl

/-! ## The start-up message -/

/-- C8: port 8081 is taken, `ListenAndServe` fails at once and `Start` returns
"failed to start server: ...", yet "Server Successfully Running" has been
printed, before the server value was even built. -/
theorem banner_precedes_server_start :
    (Start envBindFails ctx0 New).result = .returned (some (.errorString 7
      "failed to start server: listen tcp :8081: bind: address already in use")) ∧
    Action.println "Server Successfully Running" ∈
      before .newServer (Start envBindFails ctx0 New).trace ∧
    Action.listenAndServeReturned { Addr := ":8081", Handler := ⟨1136⟩ }
      (some errAddrInUse) ∈ (Start envBindFails ctx0 New).trace := by
  decide

/-! ## Release of resources -/

theorem wiringSteps_resources (env : Env) (cfg : Config) (conn : SnmpConn)
    (h2 : env.setupSnmpConnection cfg = .ok conn) :
    (wiringSteps env cfg conn).filterMap released = [] ∧
    (wiringSteps env cfg conn).filterMap (acquired env) =
      [.redis (env.newRedisClient cfg), .snmp conn] := by
  simp [wiringSteps, released, acquired, h2]

theorem serveSteps_resources (env : Env) (s : Server) (e : Option GoError) :
    (serveSteps env s e).filterMap released = [] ∧
    (serveSteps env s e).filterMap (acquired env) = [] := by
  unfold serveSteps
  cases serveReport env e <;> simp [released, acquired]

theorem shutdownSteps_resources (env : Env) (ctx : CallerCtx) (s : Server) :
    (shutdownSteps env ctx s).filterMap released = [] ∧
    (shutdownSteps env ctx s).filterMap (acquired env) = [.timeout shutdownCtx] := by
  unfold shutdownSteps
  cases env.shutdownErr <;> simp [released, acquired, shutdownCtx]

theorem closeRedis_resources (env : Env) (c : RedisClient) :
    (runDeferredCall env (.closeRedis c)).filterMap released = [.redis c] ∧
    (runDeferredCall env (.closeRedis c)).filterMap (acquired env) = [] ∧
    only [.snmpClose, .redisClose] (runDeferredCall env (.closeRedis c)) = [.redisClose c] ∧
    only [.redisClose] (runDeferredCall env (.closeRedis c)) = [.redisClose c] ∧
    (∀ err, env.redisCloseErr = some err →
      Action.logPrintf ("Failed to close Redis client: " ++ err.Error) ∈
        runDeferredCall env (.closeRedis c)) := by
  unfold runDeferredCall
  cases env.redisCloseErr <;> simp [released, acquired, only, Action.tag]

theorem closeSnmp_resources (env : Env) (c : SnmpConn) :
    (runDeferredCall env (.closeSnmp c)).filterMap released = [.snmp c] ∧
    (runDeferredCall env (.closeSnmp c)).filterMap (acquired env) = [] ∧
    only [.snmpClose, .redisClose] (runDeferredCall env (.closeSnmp c)) = [.snmpClose c] ∧
    only [.redisClose] (runDeferredCall env (.closeSnmp c)) = [] ∧
    (∀ err, env.snmpCloseErr = some err →
      Action.logPrintf ("Failed to close SNMP connection: " ++ err.Error) ∈
        runDeferredCall env (.closeSnmp c)) := by
  unfold runDeferredCall
  cases env.snmpCloseErr <;> simp [released, acquired, only, Action.tag]

theorem tailSteps_split (env : Env) (ctx : CallerCtx) (cfg : Config) (conn : SnmpConn) :
    tailSteps env ctx cfg conn = bodyTail env ctx cfg conn ++ epilogue env cfg conn := by
  unfold tailSteps bodyTail epilogue
  cases resolve env.schedule <;> simp

theorem bodyTail_resources (env : Env) (ctx : CallerCtx) (cfg : Config) (conn : SnmpConn) :
    (bodyTail env ctx cfg conn).filterMap released = [] ∧
    (bodyTail env ctx cfg conn).filterMap (acquired env) =
      (match resolve env.schedule with
       | .cancelled _ => [.timeout shutdownCtx]
       | _ => []) ∧
    only [.snmpClose, .redisClose] (bodyTail env ctx cfg conn) = [] ∧
    only [.redisClose] (bodyTail env ctx cfg conn) = [] := by
  have hs := serveSteps_resources env (serverOf env cfg conn)
  have hd := shutdownSteps_resources env ctx (serverOf env cfg conn)
  have ht := serveSteps_tag env (serverOf env cfg conn)
  have hdt := shutdownSteps_tag env ctx (serverOf env cfg conn)
  have n1 : ∀ e, only [.snmpClose, .redisClose] (serveSteps env (serverOf env cfg conn) e)
      = [] := fun e => only_eq_nil _ _ (fun x hx hmem => by
    have := ht e x hx
    revert this hmem; generalize x.tag = t; cases t <;> simp)
  have n2 : ∀ e, only [.redisClose] (serveSteps env (serverOf env cfg conn) e) = [] :=
    fun e => only_eq_nil _ _ (fun x hx hmem => by
      have := ht e x hx
      revert this hmem; generalize x.tag = t; cases t <;> simp)
  have n3 : only [.snmpClose, .redisClose] (shutdownSteps env ctx (serverOf env cfg conn))
      = [] := only_eq_nil _ _ (fun x hx hmem => by
    have := hdt x hx
    revert this hmem; generalize x.tag = t; cases t <;> simp)
  have n4 : only [.redisClose] (shutdownSteps env ctx (serverOf env cfg conn)) = [] :=
    only_eq_nil _ _ (fun x hx hmem => by
      have := hdt x hx
      revert this hmem; generalize x.tag = t; cases t <;> simp)
  unfold bodyTail
  cases resolve env.schedule with
  | received e =>
    simp [List.filterMap_append, (hs e).1, (hs e).2, only_append, n1, n2]
    simp [released, acquired, only, Action.tag]
  | cancelled g =>
    rcases g with _ | e
    · simp [hd.1, hd.2, n3, n4]
    · simp [List.filterMap_append, (hs e).1, (hs e).2, hd.1, hd.2, only_append, n1, n2,
        n3, n4]
  | stuck => simp [only]

/-- C7: on every run of `Start` that returns, what is released is exactly what
was acquired, each once and in reverse order of acquisition (timeout context,
SNMP connection, Redis client), and every release comes after every
acquisition, in the deferred calls.  So the Redis client is closed once on the
path where SNMP setup fails and on the paths after the server was started, and
where both are held the SNMP connection is closed before the Redis client.  A
failing close is logged, and the value `Start` returns does not depend on the
results of the two closes. -/
theorem resources_released_in_reverse (env : Env) (ctx : CallerCtx) (a : App)
    (v : Option GoError) (hret : (Start env ctx a).result = .returned v) :
    (Start env ctx a).trace.filterMap released =
      ((Start env ctx a).trace.filterMap (acquired env)).reverse ∧
    (∃ body tl, (Start env ctx a).trace = body ++ tl ∧
      body.filterMap released = [] ∧ tl.filterMap (acquired env) = []) ∧
    (∀ cfg, env.loadConfig (configPathOf env) = .ok cfg →
      only [.redisClose] (Start env ctx a).trace = [.redisClose (env.newRedisClient cfg)] ∧
      (∀ err, env.redisCloseErr = some err →
        Action.logPrintf ("Failed to close Redis client: " ++ err.Error) ∈
          (Start env ctx a).trace)) ∧
    (∀ cfg conn, env.loadConfig (configPathOf env) = .ok cfg →
      env.setupSnmpConnection cfg = .ok conn →
      only [.snmpClose, .redisClose] (Start env ctx a).trace =
        [.snmpClose conn, .redisClose (env.newRedisClient cfg)] ∧
      (∀ err, env.snmpCloseErr = some err →
        Action.logPrintf ("Failed to close SNMP connection: " ++ err.Error) ∈
          (Start env ctx a).trace)) ∧
    (∀ x y, (Start { env with redisCloseErr := x, snmpCloseErr := y } ctx a).result =
      (Start env ctx a).result) := by
  cases h1 : env.loadConfig (configPathOf env) with
  | error err =>
    have hE := Start_loadError env ctx a err h1
    refine ⟨?_, ⟨(Start env ctx a).trace, [], by simp, ?_, rfl⟩, ?_, ?_, ?_⟩
    · rw [hE]; simp [released, acquired]
    · rw [hE]; simp [released]
    · intro cfg h; cases h
    · intro cfg conn h; cases h
    · intro x y
      rw [hE, Start_loadError { env with redisCloseErr := x, snmpCloseErr := y } ctx a err h1]
  | ok cfg =>
    have hr := closeRedis_resources env (redisOf env cfg)
    cases h2 : env.setupSnmpConnection cfg with
    | error err =>
      have hE := Start_snmpError env ctx a cfg err h1 h2
      refine ⟨?_, ⟨_, _, congrArg Run.trace hE, ?_, hr.2.1⟩, ?_, ?_, ?_⟩
      · rw [hE]
        simp [List.filterMap_append, hr.1, hr.2.1, released, acquired, h2, redisOf]
      · simp [released]
      · intro cfg' h
        cases h
        rw [hE]
        refine ⟨?_, fun e he => ?_⟩
        · simp only [only_append, hr.2.2.2.1]
          simp [only, Action.tag, redisOf]
        · simp only [List.mem_append]
          exact Or.inr (hr.2.2.2.2 e he)
      · intro cfg' conn h h2'
        cases h
        rw [h2] at h2'
        cases h2'
      · intro x y
        rw [hE, Start_snmpError { env with redisCloseErr := x, snmpCloseErr := y } ctx a
          cfg err h1 h2]
    | ok conn =>
      have hT := Start_trace env ctx a cfg conn h1 h2
      have hR := Start_result env ctx a cfg conn h1 h2
      have hw := wiringSteps_resources env cfg conn h2
      have hc := closeSnmp_resources env conn
      have hb := bodyTail_resources env ctx cfg conn
      have hsplit := tailSteps_split env ctx cfg conn
      have hne : resolve env.schedule ≠ .stuck := by
        intro hst
        rw [hR, hst] at hret
        cases hret
      have hw1 : only [.snmpClose, .redisClose] (wiringSteps env cfg conn) = [] := by
        simp [only, wiringSteps, Action.tag]
      have hw2 : only [.redisClose] (wiringSteps env cfg conn) = [] := by
        simp [only, wiringSteps, Action.tag]
      have hclose : ∀ x ∈ closingSteps env cfg conn, x ∈ epilogue env cfg conn := by
        intro x hx
        unfold epilogue
        cases hres : resolve env.schedule with
        | received e => simpa using hx
        | cancelled g => simp [hx]
        | stuck => exact absurd hres hne
      have hep : (epilogue env cfg conn).filterMap (acquired env) = [] ∧
          (epilogue env cfg conn).filterMap released =
            (match resolve env.schedule with
             | .cancelled _ => [.timeout shutdownCtx]
             | _ => []) ++ [.snmp conn, .redis (redisOf env cfg)] ∧
          only [.snmpClose, .redisClose] (epilogue env cfg conn) =
            [.snmpClose conn, .redisClose (redisOf env cfg)] ∧
          only [.redisClose] (epilogue env cfg conn) = [.redisClose (redisOf env cfg)] := by
        unfold epilogue
        cases hres : resolve env.schedule with
        | received e =>
          simp [closingSteps, List.filterMap_append, only_append, hc.1, hc.2.1, hc.2.2.1,
            hc.2.2.2.1, hr.1, hr.2.1, hr.2.2.1, hr.2.2.2.1]
        | cancelled g =>
          have k1 : only [.snmpClose, .redisClose] [Action.cancel shutdownCtx] = [] := by
            simp [only, Action.tag]
          have k2 : only [.redisClose] [Action.cancel shutdownCtx] = [] := by
            simp [only, Action.tag]
          have k3 : [Action.cancel shutdownCtx].filterMap released =
              [.timeout shutdownCtx] := by
            simp [released]
          have k4 : [Action.cancel shutdownCtx].filterMap (acquired env) = [] := by
            simp [acquired]
          simp only [closingSteps, List.filterMap_append, only_append, hc.1, hc.2.1,
            hc.2.2.1, hc.2.2.2.1, hr.1, hr.2.1, hr.2.2.1, hr.2.2.2.1, k1, k2, k3, k4]
          simp
        | stuck => exact absurd hres hne
      refine ⟨?_, ⟨wiringSteps env cfg conn ++ bodyTail env ctx cfg conn,
        epilogue env cfg conn, ?_, ?_, hep.1⟩, ?_, ?_, ?_⟩
      · rw [hT, hsplit]
        simp only [List.filterMap_append, hw.1, hw.2, hb.1, hb.2.1, hep.1, hep.2.1]
        cases resolve env.schedule <;> simp [redisOf]
      · rw [hT, hsplit, List.append_assoc]
      · simp [List.filterMap_append, hw.1, hb.1]
      · intro cfg' h
        cases h
        rw [hT, hsplit]
        refine ⟨?_, fun e he => ?_⟩
        · simp only [only_append, hw2, hb.2.2.2, hep.2.2.2]
          simp [redisOf]
        · simp only [List.mem_append]
          refine Or.inr (Or.inr (hclose _ ?_))
          simp only [closingSteps, List.mem_append]
          exact Or.inr (hr.2.2.2.2 e he)
      · intro cfg' conn' h h2'
        cases h
        rw [h2] at h2'
        cases h2'
        rw [hT, hsplit]
        refine ⟨?_, fun e he => ?_⟩
        · simp only [only_append, hw1, hb.2.2.1, hep.2.2.1]
          simp [redisOf]
        · simp only [List.mem_append]
          refine Or.inr (Or.inr (hclose _ ?_))
          simp only [closingSteps, List.mem_append]
          exact Or.inl (hc.2.2.2.2 e he)
      · intro x y
        rw [hR, Start_result { env with redisCloseErr := x, snmpCloseErr := y } ctx a
          cfg conn h1 h2]
        simp only [serveReport]

/-- C7 at a concrete environment in which both closes fail: the order of the
releases mirrors the order of the acquisitions and `Start` returns nil. -/
theorem resources_released_in_reverse_witness :
    (Start envClosesFail ctx0 New).result = .returned none ∧
    (Start envClosesFail ctx0 New).trace.filterMap released =
      [.timeout (.withTimeout .background 10000000000), .snmp ⟨3⟩, .redis ⟨2⟩] ∧
    (Start envClosesFail ctx0 New).trace.filterMap (acquired envClosesFail) =
      [.redis ⟨2⟩, .snmp ⟨3⟩, .timeout (.withTimeout .background 10000000000)] :=
  have h := (resources_released_in_reverse envClosesFail ctx0 New none rfl).1
  ⟨rfl, by rw [h]; decide, by decide⟩

end OltApp
